import Mathlib

/-!
Verification of the `zapguard` circuit-breaker library.

This file gives a shallow embedding of the TypeScript sources:

* `src/src/types.ts` — the data model (`CircuitBreakerState`,
  `CircuitBreakerOptions`, `VersionedStorageValue`,
  `AsyncCircuitBreakerStorage`, `CircuitBreakerHooks`);
* `src/src/circuit-breaker.ts` — the in-memory engine (`assertCanExecute`,
  `recordSuccess`, `recordFailure`, `getState`, `setState`);
* the `RemoteCircuitBreaker` extension (`save`, `safeSave`, `load`) and the
  error classes of `src/src/errors/`.

Modelling conventions:

* JavaScript exceptions become an explicit `JsError` value channel; a
  function that may throw returns its result paired with `Option JsError`
  (the engine methods) or an `Except JsError` result (the storage port).
* `Date.now()` becomes an explicit `now : Int` argument (epoch
  milliseconds); counters are `Nat` (they start at 0 and are only ever
  incremented by 1).
* The optional observability hooks become a `CircuitBreakerHooks` record of
  total functions returning `Except JsError Unit`; the absent-hooks
  configuration (`this.hooks === undefined`, every `?.` call a no-op) is the
  record `noHooks` that always returns `Except.ok ()`.
* The async storage collaborator becomes a state-transformer record over an
  abstract backend state `σ`: each operation returns its result (or error)
  together with the backend state after the call.  The in-memory breaker
  state (`this.state`) is threaded explicitly through the remote methods so
  that frame properties about it can be stated.
* JavaScript truthiness of `this.state.openedAt` (`undefined` and `0` are
  falsy) is modelled on `Option Int` as "is `some t` with `t ≠ 0`".
-/

/-- `CircuitBreakerStatus` from `types.ts`: `'OPEN' | 'CLOSED' | 'HALF_OPEN'`. -/
inductive CircuitBreakerStatus where
  | OPEN
  | CLOSED
  | HALF_OPEN
deriving DecidableEq, Repr

/-- `CircuitBreakerState` from `types.ts`.  `openedAt?: number` becomes
`Option Int` (epoch milliseconds, absent = `none`). -/
structure CircuitBreakerState where
  status : CircuitBreakerStatus
  failureCount : Nat
  successCount : Nat
  openedAt : Option Int
deriving DecidableEq, Repr

/-- `CircuitBreakerOptions` from `types.ts`. -/
structure CircuitBreakerOptions where
  failureThreshold : Nat
  successThreshold : Nat
  resetTimeoutMs : Int
deriving DecidableEq, Repr

/-- The error values the library can raise: the plain
`Error('Circuit breaker is open')` of `assertCanExecute`, the three classes
of `src/src/errors/`, and arbitrary foreign errors thrown by a storage
backend.  `StorageOperationError`'s `cause` is always supplied at every
construction site in the sources, so it is a plain `JsError` field here. -/
inductive JsError where
  | circuitOpen (message : String)
  | concurrencyConflict (key : String)
  | itemAlreadyExists (key : String)
  | storageOperation (message : String) (cause : JsError)
  | foreign (message : String)
deriving DecidableEq, Repr

/-- `err instanceof Errors.ConcurrencyConflictError`. -/
def JsError.isConcurrencyConflict : JsError → Bool
  | .concurrencyConflict _ => true
  | _ => false

/-- `err instanceof Errors.ItemAlreadyExistsError`. -/
def JsError.isItemAlreadyExists : JsError → Bool
  | .itemAlreadyExists _ => true
  | _ => false

/-- `CircuitBreakerHooks` from `types.ts`, as total functions; each callback
may itself throw.  The `meta` arguments (`name`, `operation`) carry no
state, so `onStateChange` keeps only the two states and `onError` keeps the
error and the operation string. -/
structure CircuitBreakerHooks where
  onStateChange : CircuitBreakerState → CircuitBreakerState → Except JsError Unit
  onError : JsError → String → Except JsError Unit

/-- The absent-hooks configuration: every `this.hooks?.x?.(...)` call is a
no-op. -/
def noHooks : CircuitBreakerHooks :=
  { onStateChange := fun _ _ => Except.ok ()
    onError := fun _ _ => Except.ok () }

/-- `CircuitBreaker.setState`: installs `{...next}` as the new state, then
invokes the `onStateChange` hook with the previous and the new state.  The
state field is updated before the hook runs, so the new state is returned
even when the hook throws; the hook's exception is surfaced in the second
component. -/
def setState (hooks : CircuitBreakerHooks) (prev next : CircuitBreakerState) :
    CircuitBreakerState × Option JsError :=
  (next,
    match hooks.onStateChange prev next with
    | Except.ok _ => none
    | Except.error e => some e)

/-- The `catch` block shared by the three engine methods:
`this.hooks?.onError?.(err, {name, operation}); throw err`.  If `onError`
itself throws, its exception replaces the original one (JavaScript `throw`
inside a `catch` block). -/
def rethrowViaOnError (hooks : CircuitBreakerHooks) (e : JsError)
    (operation : String) : JsError :=
  match hooks.onError e operation with
  | Except.ok _ => e
  | Except.error e2 => e2

/-- The `try { body } catch (err) { this.hooks?.onError?.(...); throw err }`
shape shared by the three engine methods, applied to the body's outcome. -/
def tryCatchOnError (hooks : CircuitBreakerHooks) (operation : String) :
    CircuitBreakerState × Option JsError → CircuitBreakerState × Option JsError
  | (st, none) => (st, none)
  | (st, some e) => (st, some (rethrowViaOnError hooks e operation))

/-- `CircuitBreaker.recordSuccess` with hooks.  Returns the state after the
call and the exception propagated to the caller, if any. -/
def recordSuccessH (hooks : CircuitBreakerHooks) (options : CircuitBreakerOptions)
    (state : CircuitBreakerState) : CircuitBreakerState × Option JsError :=
  tryCatchOnError hooks "recordSuccess"
    (if state.status = CircuitBreakerStatus.HALF_OPEN then
      if state.successCount + 1 ≥ options.successThreshold then
        setState hooks state
          { status := CircuitBreakerStatus.CLOSED
            failureCount := 0
            successCount := 0
            openedAt := none }
      else
        setState hooks state { state with successCount := state.successCount + 1 }
    else
      (state, none))

/-- `CircuitBreaker.recordFailure` with hooks; `now` is `Date.now()`. -/
def recordFailureH (hooks : CircuitBreakerHooks) (options : CircuitBreakerOptions)
    (now : Int) (state : CircuitBreakerState) : CircuitBreakerState × Option JsError :=
  tryCatchOnError hooks "recordFailure"
    (if state.status = CircuitBreakerStatus.CLOSED ∨
        state.status = CircuitBreakerStatus.HALF_OPEN then
      if state.failureCount + 1 ≥ options.failureThreshold then
        setState hooks state
          { status := CircuitBreakerStatus.OPEN
            failureCount := 0
            successCount := 0
            openedAt := some now }
      else
        setState hooks state { state with failureCount := state.failureCount + 1 }
    else
      (state, none))

/-- `CircuitBreaker.assertCanExecute` with hooks; `now` is `Date.now()`.
The guard `this.state.openedAt && Date.now() - this.state.openedAt >=
this.options.resetTimeoutMs` requires `openedAt` to be present and truthy
(nonzero).  On a timed-out OPEN state it installs
`{...this.state, status: 'HALF_OPEN', successCount: 0, failureCount: 0}` —
note the spread keeps `openedAt`. -/
def assertCanExecuteH (hooks : CircuitBreakerHooks) (options : CircuitBreakerOptions)
    (now : Int) (state : CircuitBreakerState) : CircuitBreakerState × Option JsError :=
  tryCatchOnError hooks "assertCanExecute"
    (if state.status = CircuitBreakerStatus.OPEN then
      match state.openedAt with
      | some t =>
        if t ≠ 0 ∧ now - t ≥ options.resetTimeoutMs then
          setState hooks state
            { state with
                status := CircuitBreakerStatus.HALF_OPEN
                successCount := 0
                failureCount := 0 }
        else
          (state, some (JsError.circuitOpen "Circuit breaker is open"))
      | none => (state, some (JsError.circuitOpen "Circuit breaker is open"))
    else
      (state, none))

/-- `recordSuccess` in the absent-hooks configuration (state after the call;
the method never throws in this configuration). -/
def recordSuccess (options : CircuitBreakerOptions)
    (state : CircuitBreakerState) : CircuitBreakerState :=
  (recordSuccessH noHooks options state).1

/-- `recordFailure` in the absent-hooks configuration. -/
def recordFailure (options : CircuitBreakerOptions) (now : Int)
    (state : CircuitBreakerState) : CircuitBreakerState :=
  (recordFailureH noHooks options now state).1

/-- `assertCanExecute` in the absent-hooks configuration: state after the
call and the `CircuitOpenError`, if raised. -/
def assertCanExecute (options : CircuitBreakerOptions) (now : Int)
    (state : CircuitBreakerState) : CircuitBreakerState × Option JsError :=
  assertCanExecuteH noHooks options now state

/-- The state a `CircuitBreaker` is constructed with:
`{status: 'CLOSED', failureCount: 0, successCount: 0}`. -/
def initialState : CircuitBreakerState :=
  { status := CircuitBreakerStatus.CLOSED
    failureCount := 0
    successCount := 0
    openedAt := none }

/-- `n` consecutive `recordFailure()` calls (all at time `now`), oldest
first: `iterateFailures (n+1)` performs `n` calls and then one more. -/
def iterateFailures (options : CircuitBreakerOptions) (now : Int) :
    Nat → CircuitBreakerState → CircuitBreakerState
  | 0, st => st
  | n + 1, st => recordFailure options now (iterateFailures options now n st)

/-- The states reachable from the constructor state by the three public
mutating operations, each call at an arbitrary time. -/
inductive Reachable (options : CircuitBreakerOptions) : CircuitBreakerState → Prop where
  | init : Reachable options initialState
  | gate (now : Int) (st : CircuitBreakerState) :
      Reachable options st → Reachable options (assertCanExecute options now st).1
  | success (st : CircuitBreakerState) :
      Reachable options st → Reachable options (recordSuccess options st)
  | failure (now : Int) (st : CircuitBreakerState) :
      Reachable options st → Reachable options (recordFailure options now st)

/-- One public mutating operation, from `st` to `st'`. -/
inductive Step (options : CircuitBreakerOptions) :
    CircuitBreakerState → CircuitBreakerState → Prop where
  | gate (now : Int) (st : CircuitBreakerState) :
      Step options st (assertCanExecute options now st).1
  | success (st : CircuitBreakerState) :
      Step options st (recordSuccess options st)
  | failure (now : Int) (st : CircuitBreakerState) :
      Step options st (recordFailure options now st)

/-!
### Object-heap model for `getState`

`getState()` returns `{ ...this.state }`: a freshly allocated object whose
fields are copied from the engine's internal state object.  To state the
aliasing property, state objects live in a heap of numbered references; the
engine holds the reference `stateRef` to its internal state object.
-/

/-- A heap of `CircuitBreakerState` objects: references below `nextRef` are
allocated. -/
structure Heap where
  objs : Nat → CircuitBreakerState
  nextRef : Nat

/-- Allocate a fresh object holding `v` (an object literal such as
`{ ...this.state }`). -/
def Heap.alloc (h : Heap) (v : CircuitBreakerState) : Nat × Heap :=
  (h.nextRef,
    { objs := fun r => if r = h.nextRef then v else h.objs r
      nextRef := h.nextRef + 1 })

/-- An external in-place mutation of the object behind reference `r`
(covers any sequence of field assignments). -/
def Heap.write (h : Heap) (r : Nat) (v : CircuitBreakerState) : Heap :=
  { objs := fun x => if x = r then v else h.objs x
    nextRef := h.nextRef }

/-- `CircuitBreaker.getState`: `return { ...this.state }` — allocates a new
object whose fields are copied from the object behind the engine's
`stateRef`, and returns its reference together with the heap after the
allocation. -/
def CircuitBreaker.getState (h : Heap) (stateRef : Nat) : Nat × Heap :=
  h.alloc (h.objs stateRef)

/-!
### Remote persistence extension

The storage collaborator (`AsyncCircuitBreakerStorage` in `types.ts`) is a
state-transformer record over an abstract backend state `σ`.  Each
`RemoteCircuitBreaker` method takes the in-memory breaker state
(`this.state`) together with the backend state, and returns the method's
result, the in-memory state after the call, and the backend state after the
call.
-/

/-- `VersionedStorageValue` from `types.ts`. -/
structure VersionedStorageValue where
  value : CircuitBreakerState
  version : String
deriving DecidableEq, Repr

/-- The `AsyncCircuitBreakerStorage` port over backend state `σ`: `get`
yields a versioned value or absence, `put` yields the new version token;
either may fail.  (`delete` is not used by the methods under study.) -/
structure AsyncCircuitBreakerStorage (σ : Type) where
  get : String → σ → Except JsError (Option VersionedStorageValue) × σ
  put : String → CircuitBreakerState → σ → Except JsError String × σ

/-- `RemoteCircuitBreaker.save`: `await this.storage.put(this.name!,
this.state)`; a `ConcurrencyConflictError` is re-thrown unwrapped, any other
failure is wrapped in a `StorageOperationError`. -/
def RemoteCircuitBreaker.save {σ : Type} (storage : AsyncCircuitBreakerStorage σ)
    (name : String) (state : CircuitBreakerState) (s : σ) :
    Except JsError Unit × CircuitBreakerState × σ :=
  match storage.put name state s with
  | (Except.ok _, s') => (Except.ok (), state, s')
  | (Except.error e, s') =>
    if e.isConcurrencyConflict then
      (Except.error e, state, s')
    else
      (Except.error (JsError.storageOperation "Failed to save circuit breaker state" e),
        state, s')

/-- `RemoteCircuitBreaker.safeSave`: reads first; an existing entry raises
`ItemAlreadyExistsError(name)`, otherwise delegates to `save`.  The `catch`
block re-throws an `ItemAlreadyExistsError` unwrapped and wraps every other
exception in a `StorageOperationError`. -/
def RemoteCircuitBreaker.safeSave {σ : Type} (storage : AsyncCircuitBreakerStorage σ)
    (name : String) (state : CircuitBreakerState) (s : σ) :
    Except JsError Unit × CircuitBreakerState × σ :=
  let body : Except JsError Unit × CircuitBreakerState × σ :=
    match storage.get name s with
    | (Except.error e, s') => (Except.error e, state, s')
    | (Except.ok (some _), s') => (Except.error (JsError.itemAlreadyExists name), state, s')
    | (Except.ok none, s') => RemoteCircuitBreaker.save storage name state s'
  match body with
  | (Except.ok u, st, s') => (Except.ok u, st, s')
  | (Except.error e, st, s') =>
    if e.isItemAlreadyExists then
      (Except.error e, st, s')
    else
      (Except.error (JsError.storageOperation "Failed to safeSave circuit breaker state" e),
        st, s')

/-- `RemoteCircuitBreaker.load`: reads the stored entry; absence yields
`undefined`, presence yields the unwrapped `value`; a read failure is
wrapped in a `StorageOperationError`. -/
def RemoteCircuitBreaker.load {σ : Type} (storage : AsyncCircuitBreakerStorage σ)
    (name : String) (state : CircuitBreakerState) (s : σ) :
    Except JsError (Option CircuitBreakerState) × CircuitBreakerState × σ :=
  match storage.get name s with
  | (Except.error e, s') =>
    (Except.error (JsError.storageOperation "Failed to load circuit breaker state" e),
      state, s')
  | (Except.ok none, s') => (Except.ok none, state, s')
  | (Except.ok (some raw), s') => (Except.ok (some raw.value), state, s')

/-- An honest association-list backend: `get` is pure lookup, `put`
prepends the new entry under a fixed fresh version token `ver`, nothing
fails. -/
def mapStorage (ver : String) :
    AsyncCircuitBreakerStorage (List (String × VersionedStorageValue)) :=
  { get := fun key s => (Except.ok (s.lookup key), s)
    put := fun key value s => (Except.ok ver, (key, ⟨value, ver⟩) :: s) }

/-- A backend with no entry under any key whose `put` always loses the
optimistic-concurrency race on key `k`. -/
def conflictingStorage (k : String) : AsyncCircuitBreakerStorage Unit :=
  { get := fun _ s => (Except.ok none, s)
    put := fun _ _ s => (Except.error (JsError.concurrencyConflict k), s) }

/-!
## Basic lemmas about the engine operations

The `_spec` lemmas restate each absent-hooks operation as a plain
conditional on the input state; every claim proof below works from these.
-/

theorem setState_noHooks (prev next : CircuitBreakerState) :
    setState noHooks prev next = (next, none) := rfl

theorem tryCatchOnError_noHooks (operation : String)
    (r : CircuitBreakerState × Option JsError) :
    tryCatchOnError noHooks operation r = r := by
  rcases r with ⟨st, e⟩
  cases e <;> rfl

theorem recordSuccess_spec (options : CircuitBreakerOptions)
    (st : CircuitBreakerState) :
    recordSuccess options st =
      if st.status = CircuitBreakerStatus.HALF_OPEN then
        if st.successCount + 1 ≥ options.successThreshold then
          { status := CircuitBreakerStatus.CLOSED, failureCount := 0,
            successCount := 0, openedAt := none }
        else { st with successCount := st.successCount + 1 }
      else st := by
  unfold recordSuccess recordSuccessH
  rw [tryCatchOnError_noHooks]
  split
  · split <;> rfl
  · rfl

theorem recordFailure_spec (options : CircuitBreakerOptions) (now : Int)
    (st : CircuitBreakerState) :
    recordFailure options now st =
      if st.status = CircuitBreakerStatus.CLOSED ∨
          st.status = CircuitBreakerStatus.HALF_OPEN then
        if st.failureCount + 1 ≥ options.failureThreshold then
          { status := CircuitBreakerStatus.OPEN, failureCount := 0,
            successCount := 0, openedAt := some now }
        else { st with failureCount := st.failureCount + 1 }
      else st := by
  unfold recordFailure recordFailureH
  rw [tryCatchOnError_noHooks]
  split
  · split <;> rfl
  · rfl

theorem gate_not_open (options : CircuitBreakerOptions) (now : Int)
    (st : CircuitBreakerState) (h : st.status ≠ CircuitBreakerStatus.OPEN) :
    assertCanExecute options now st = (st, none) := by
  unfold assertCanExecute assertCanExecuteH
  rw [tryCatchOnError_noHooks, if_neg h]

theorem gate_open_none (options : CircuitBreakerOptions) (now : Int)
    (st : CircuitBreakerState) (hop : st.status = CircuitBreakerStatus.OPEN)
    (hoa : st.openedAt = none) :
    assertCanExecute options now st =
      (st, some (JsError.circuitOpen "Circuit breaker is open")) := by
  unfold assertCanExecute assertCanExecuteH
  rw [tryCatchOnError_noHooks, if_pos hop, hoa]

theorem gate_open_some (options : CircuitBreakerOptions) (now t : Int)
    (st : CircuitBreakerState) (hop : st.status = CircuitBreakerStatus.OPEN)
    (hoa : st.openedAt = some t) :
    assertCanExecute options now st =
      if t ≠ 0 ∧ now - t ≥ options.resetTimeoutMs then
        ({ st with
            status := CircuitBreakerStatus.HALF_OPEN
            successCount := 0
            failureCount := 0 }, none)
      else (st, some (JsError.circuitOpen "Circuit breaker is open")) := by
  unfold assertCanExecute assertCanExecuteH
  rw [tryCatchOnError_noHooks, if_pos hop, hoa]
  split
  · rename_i t2 heq
    obtain rfl : t = t2 := Option.some.inj heq
    split <;> rfl
  · rename_i heq
    exact Option.noConfusion heq


/-!
## Claims about the in-memory engine
-/

/-- Claim C1, as stated, is false: with `failureThreshold = 2`, a single
`recordFailure()` from the HALF_OPEN state with `failureCount = 0` only
increments `failureCount` and stays HALF_OPEN instead of transitioning to
OPEN. -/
theorem halfOpen_single_failure_not_open :
    recordFailure ⟨2, 2, 1000⟩ 7
        { status := CircuitBreakerStatus.HALF_OPEN, failureCount := 0,
          successCount := 0, openedAt := some 5 } =
      { status := CircuitBreakerStatus.HALF_OPEN, failureCount := 1,
        successCount := 0, openedAt := some 5 } ∧
    (recordFailure ⟨2, 2, 1000⟩ 7
        { status := CircuitBreakerStatus.HALF_OPEN, failureCount := 0,
          successCount := 0, openedAt := some 5 }).status ≠
      CircuitBreakerStatus.OPEN := by
  constructor <;> decide

/-- Claim C1 (amended): in a HALF_OPEN state, `recordFailure()` transitions
to OPEN (counters zero, `openedAt = now`) exactly when the incremented
failure count reaches `failureThreshold` — the threshold is shared with the
CLOSED state, so it does depend on `failureThreshold` (and on the prior
`failureCount`), though never on `successCount`; otherwise the state keeps
status HALF_OPEN with only `failureCount` incremented. -/
theorem recordFailure_halfOpen (options : CircuitBreakerOptions) (now : Int)
    (st : CircuitBreakerState) (h : st.status = CircuitBreakerStatus.HALF_OPEN) :
    recordFailure options now st =
      if st.failureCount + 1 ≥ options.failureThreshold then
        { status := CircuitBreakerStatus.OPEN, failureCount := 0,
          successCount := 0, openedAt := some now }
      else { st with failureCount := st.failureCount + 1 } := by
  rw [recordFailure_spec, if_pos (Or.inr h)]

/-- Witness for the amended claim C1: with `failureThreshold = 1`, a single
failure from HALF_OPEN reopens immediately, whatever `successCount` is. -/
theorem recordFailure_halfOpen_witness :
    recordFailure ⟨1, 2, 1000⟩ 7
        { status := CircuitBreakerStatus.HALF_OPEN, failureCount := 0,
          successCount := 3, openedAt := some 5 } =
      { status := CircuitBreakerStatus.OPEN, failureCount := 0,
        successCount := 0, openedAt := some 7 } := by
  rw [recordFailure_halfOpen ⟨1, 2, 1000⟩ 7
    { status := CircuitBreakerStatus.HALF_OPEN, failureCount := 0,
      successCount := 3, openedAt := some 5 } rfl]
  decide

/-- Claim C2, as stated, is false in its "openedAt cleared" part: the
transition to HALF_OPEN spreads the old state, so `openedAt` is retained.
Concretely, with `resetTimeoutMs = 1000`, from OPEN with `openedAt = 5` at
`now = 2000` the gate transitions to HALF_OPEN but keeps `openedAt = 5`. -/
theorem gate_keeps_openedAt_counterexample :
    (assertCanExecute ⟨2, 2, 1000⟩ 2000
        { status := CircuitBreakerStatus.OPEN, failureCount := 0,
          successCount := 0, openedAt := some 5 }).1 =
      { status := CircuitBreakerStatus.HALF_OPEN, failureCount := 0,
        successCount := 0, openedAt := some 5 } ∧
    (assertCanExecute ⟨2, 2, 1000⟩ 2000
        { status := CircuitBreakerStatus.OPEN, failureCount := 0,
          successCount := 0, openedAt := some 5 }).1.openedAt ≠ none := by
  constructor <;> decide

/-- Claim C2 (amended): for every OPEN state with a nonzero `openedAt = t`
(the gate's truthiness guard treats `openedAt = 0` like absence): if
`now - t < resetTimeoutMs` the gate fails with `CircuitOpenError` and
leaves the state unchanged; if `now - t ≥ resetTimeoutMs` it transitions to
HALF_OPEN with both counters reset to 0 and `openedAt` retained (not
cleared), raising nothing. -/
theorem assertCanExecute_open (options : CircuitBreakerOptions) (now t : Int)
    (st : CircuitBreakerState) (hop : st.status = CircuitBreakerStatus.OPEN)
    (hoa : st.openedAt = some t) (ht : t ≠ 0) :
    (now - t < options.resetTimeoutMs →
      assertCanExecute options now st =
        (st, some (JsError.circuitOpen "Circuit breaker is open"))) ∧
    (now - t ≥ options.resetTimeoutMs →
      assertCanExecute options now st =
        ({ st with
            status := CircuitBreakerStatus.HALF_OPEN
            successCount := 0
            failureCount := 0 }, none)) := by
  constructor
  · intro hlt
    rw [gate_open_some options now t st hop hoa,
      if_neg (fun hc => absurd hc.2 (not_le.mpr hlt))]
  · intro hge
    rw [gate_open_some options now t st hop hoa, if_pos ⟨ht, hge⟩]

/-- Witness for the amended claim C2, both branches at concrete inputs. -/
theorem assertCanExecute_open_witness :
    assertCanExecute ⟨2, 2, 1000⟩ 500
        { status := CircuitBreakerStatus.OPEN, failureCount := 0,
          successCount := 0, openedAt := some 5 } =
      ({ status := CircuitBreakerStatus.OPEN, failureCount := 0,
          successCount := 0, openedAt := some 5 },
        some (JsError.circuitOpen "Circuit breaker is open")) ∧
    assertCanExecute ⟨2, 2, 1000⟩ 2000
        { status := CircuitBreakerStatus.OPEN, failureCount := 0,
          successCount := 0, openedAt := some 5 } =
      ({ status := CircuitBreakerStatus.HALF_OPEN, failureCount := 0,
          successCount := 0, openedAt := some 5 }, none) :=
  ⟨(assertCanExecute_open ⟨2, 2, 1000⟩ 500 5
      { status := CircuitBreakerStatus.OPEN, failureCount := 0,
        successCount := 0, openedAt := some 5 } rfl rfl (by decide)).1 (by decide),
    (assertCanExecute_open ⟨2, 2, 1000⟩ 2000 5
      { status := CircuitBreakerStatus.OPEN, failureCount := 0,
        successCount := 0, openedAt := some 5 } rfl rfl (by decide)).2 (by decide)⟩

/-- Claim C3: starting from a CLOSED state with `failureCount = 0` and a
positive `failureThreshold`, each of the first `failureThreshold - 1`
`recordFailure()` calls only increments `failureCount` and leaves the
status CLOSED (all other fields untouched), and the call on which the
cumulative count reaches `failureThreshold` — and no earlier call —
transitions the breaker to OPEN with counters zero and `openedAt = now`. -/
theorem failures_open_exactly_at_threshold (options : CircuitBreakerOptions)
    (now : Int) (st : CircuitBreakerState)
    (hc : st.status = CircuitBreakerStatus.CLOSED) (h0 : st.failureCount = 0)
    (hpos : 0 < options.failureThreshold) :
    (∀ k, k < options.failureThreshold →
      iterateFailures options now k st = { st with failureCount := k }) ∧
    iterateFailures options now options.failureThreshold st =
      { status := CircuitBreakerStatus.OPEN, failureCount := 0,
        successCount := 0, openedAt := some now } := by
  have key : ∀ k, k < options.failureThreshold →
      iterateFailures options now k st = { st with failureCount := k } := by
    intro k
    induction k with
    | zero =>
      intro _
      have hst : ({ st with failureCount := 0 } : CircuitBreakerState) = st := by
        cases st
        simp_all
      rw [iterateFailures, hst]
    | succ n ih =>
      intro hlt
      have hn : n < options.failureThreshold := Nat.lt_of_succ_lt hlt
      rw [iterateFailures, ih hn, recordFailure_spec]
      rw [if_pos (Or.inl hc)]
      rw [if_neg (by simpa using Nat.not_le.mpr hlt)]
  refine ⟨key, ?_⟩
  obtain ⟨n, hn⟩ : ∃ n, options.failureThreshold = n + 1 :=
    ⟨options.failureThreshold - 1, (Nat.succ_pred_eq_of_pos hpos).symm⟩
  rw [hn, iterateFailures, key n (by omega), recordFailure_spec]
  rw [if_pos (Or.inl hc), if_pos (by simp [hn])]

/-- Witness for claim C3: with `failureThreshold = 2`, one failure from the
constructor state stays CLOSED at count 1, the second opens the breaker. -/
theorem failures_open_exactly_at_threshold_witness :
    iterateFailures ⟨2, 2, 1000⟩ 7 1 initialState =
      { status := CircuitBreakerStatus.CLOSED, failureCount := 1,
        successCount := 0, openedAt := none } ∧
    iterateFailures ⟨2, 2, 1000⟩ 7 2 initialState =
      { status := CircuitBreakerStatus.OPEN, failureCount := 0,
        successCount := 0, openedAt := some 7 } :=
  ⟨(failures_open_exactly_at_threshold ⟨2, 2, 1000⟩ 7 initialState rfl rfl
      (by decide)).1 1 (by decide),
    (failures_open_exactly_at_threshold ⟨2, 2, 1000⟩ 7 initialState rfl rfl
      (by decide)).2⟩

/-- Claim C4: in a HALF_OPEN state with positive `successThreshold`,
`recordSuccess()` increments `successCount`; if the incremented count
reaches `successThreshold` the breaker closes with all counters zero and
`openedAt` cleared, otherwise the state keeps status HALF_OPEN and differs
from the old one only in the incremented `successCount`. -/
theorem recordSuccess_halfOpen (options : CircuitBreakerOptions)
    (st : CircuitBreakerState) (h : st.status = CircuitBreakerStatus.HALF_OPEN)
    (hpos : 0 < options.successThreshold) :
    recordSuccess options st =
      if st.successCount + 1 ≥ options.successThreshold then
        { status := CircuitBreakerStatus.CLOSED, failureCount := 0,
          successCount := 0, openedAt := none }
      else { st with successCount := st.successCount + 1 } := by
  rw [recordSuccess_spec, if_pos h]

/-- Witness for claim C4: with `successThreshold = 2`, the first success in
HALF_OPEN only increments the count; the second closes the breaker. -/
theorem recordSuccess_halfOpen_witness :
    recordSuccess ⟨2, 2, 1000⟩
        { status := CircuitBreakerStatus.HALF_OPEN, failureCount := 0,
          successCount := 0, openedAt := some 5 } =
      { status := CircuitBreakerStatus.HALF_OPEN, failureCount := 0,
        successCount := 1, openedAt := some 5 } ∧
    recordSuccess ⟨2, 2, 1000⟩
        { status := CircuitBreakerStatus.HALF_OPEN, failureCount := 0,
          successCount := 1, openedAt := some 5 } =
      { status := CircuitBreakerStatus.CLOSED, failureCount := 0,
        successCount := 0, openedAt := none } := by
  constructor
  · rw [recordSuccess_halfOpen ⟨2, 2, 1000⟩
      { status := CircuitBreakerStatus.HALF_OPEN, failureCount := 0,
        successCount := 0, openedAt := some 5 } rfl (by decide)]
    decide
  · rw [recordSuccess_halfOpen ⟨2, 2, 1000⟩
      { status := CircuitBreakerStatus.HALF_OPEN, failureCount := 0,
        successCount := 1, openedAt := some 5 } rfl (by decide)]
    decide

/-- Claim C7: as long as the supplied `onStateChange` hook does not throw,
`recordSuccess()` and `recordFailure()` raise nothing for any state (the
`onError` hook is then never invoked); moreover `recordSuccess()` leaves
the state unchanged when the status is CLOSED or OPEN, and
`recordFailure()` leaves it unchanged when the status is OPEN. -/
theorem record_ops_never_raise (hooks : CircuitBreakerHooks)
    (options : CircuitBreakerOptions) (now : Int) (st : CircuitBreakerState)
    (hns : ∀ prev next, hooks.onStateChange prev next = Except.ok ()) :
    (recordSuccessH hooks options st).2 = none ∧
    (recordFailureH hooks options now st).2 = none ∧
    ((st.status = CircuitBreakerStatus.CLOSED ∨
        st.status = CircuitBreakerStatus.OPEN) →
      (recordSuccessH hooks options st).1 = st) ∧
    (st.status = CircuitBreakerStatus.OPEN →
      (recordFailureH hooks options now st).1 = st) := by
  have hset : ∀ prev next, setState hooks prev next = (next, none) := by
    intro prev next
    unfold setState
    rw [hns prev next]
  refine ⟨?_, ?_, ?_, ?_⟩
  · unfold recordSuccessH
    split
    · split <;> rw [hset] <;> rfl
    · rfl
  · unfold recordFailureH
    split
    · split <;> rw [hset] <;> rfl
    · rfl
  · intro hstat
    unfold recordSuccessH
    rw [if_neg (by rcases hstat with h | h <;> simp [h])]
    rfl
  · intro hstat
    unfold recordFailureH
    rw [if_neg (by simp [hstat])]
    rfl

/-- Witness for claim C7 at an OPEN state with throw-free hooks: both
record operations raise nothing and change nothing. -/
theorem record_ops_never_raise_witness :
    (recordSuccessH noHooks ⟨2, 2, 1000⟩
      ⟨CircuitBreakerStatus.OPEN, 0, 0, some 5⟩).2 = none ∧
    (recordFailureH noHooks ⟨2, 2, 1000⟩ 7
      ⟨CircuitBreakerStatus.OPEN, 0, 0, some 5⟩).2 = none ∧
    (recordSuccessH noHooks ⟨2, 2, 1000⟩
      ⟨CircuitBreakerStatus.OPEN, 0, 0, some 5⟩).1 =
      ⟨CircuitBreakerStatus.OPEN, 0, 0, some 5⟩ ∧
    (recordFailureH noHooks ⟨2, 2, 1000⟩ 7
      ⟨CircuitBreakerStatus.OPEN, 0, 0, some 5⟩).1 =
      ⟨CircuitBreakerStatus.OPEN, 0, 0, some 5⟩ := by
  have h := record_ops_never_raise noHooks ⟨2, 2, 1000⟩ 7
    ⟨CircuitBreakerStatus.OPEN, 0, 0, some 5⟩ (fun _ _ => rfl)
  exact ⟨h.1, h.2.1, h.2.2.1 (Or.inr rfl), h.2.2.2 rfl⟩

/-- Inductive invariant for claim C8: along every reachable state,
`openedAt` is present exactly when the status is OPEN or HALF_OPEN. -/
theorem openedAt_inv (options : CircuitBreakerOptions)
    {st : CircuitBreakerState} (h : Reachable options st) :
    st.openedAt ≠ none ↔
      (st.status = CircuitBreakerStatus.OPEN ∨
        st.status = CircuitBreakerStatus.HALF_OPEN) := by
  induction h with
  | init => simp [initialState]
  | gate now st hr ih =>
    by_cases hop : st.status = CircuitBreakerStatus.OPEN
    · cases hoa : st.openedAt with
      | none => rw [gate_open_none options now st hop hoa]; exact ih
      | some t =>
        rw [gate_open_some options now t st hop hoa]
        by_cases hc : t ≠ 0 ∧ now - t ≥ options.resetTimeoutMs
        · rw [if_pos hc]
          simp [hoa]
        · rw [if_neg hc]
          exact ih
    · rw [gate_not_open options now st hop]
      exact ih
  | success st hr ih =>
    rw [recordSuccess_spec]
    by_cases hho : st.status = CircuitBreakerStatus.HALF_OPEN
    · rw [if_pos hho]
      by_cases hth : st.successCount + 1 ≥ options.successThreshold
      · rw [if_pos hth]; simp
      · rw [if_neg hth]
        simpa using ih
    · rw [if_neg hho]
      exact ih
  | failure now st hr ih =>
    rw [recordFailure_spec]
    by_cases hcf : st.status = CircuitBreakerStatus.CLOSED ∨
        st.status = CircuitBreakerStatus.HALF_OPEN
    · rw [if_pos hcf]
      by_cases hth : st.failureCount + 1 ≥ options.failureThreshold
      · rw [if_pos hth]; simp
      · rw [if_neg hth]
        simpa using ih
    · rw [if_neg hcf]
      exact ih

/-- Every single operation that changes the status resets both counters to
zero (this holds from any state, reachable or not). -/
theorem step_counters_reset (options : CircuitBreakerOptions)
    {st st' : CircuitBreakerState} (hstep : Step options st st')
    (hchg : st'.status ≠ st.status) :
    st'.failureCount = 0 ∧ st'.successCount = 0 := by
  cases hstep with
  | gate now st =>
    by_cases hop : st.status = CircuitBreakerStatus.OPEN
    · cases hoa : st.openedAt with
      | none =>
        rw [gate_open_none options now st hop hoa] at hchg
        exact absurd rfl hchg
      | some t =>
        rw [gate_open_some options now t st hop hoa] at hchg ⊢
        by_cases hc : t ≠ 0 ∧ now - t ≥ options.resetTimeoutMs
        · rw [if_pos hc]
          exact ⟨rfl, rfl⟩
        · rw [if_neg hc] at hchg
          exact absurd rfl hchg
    · rw [gate_not_open options now st hop] at hchg
      exact absurd rfl hchg
  | success st =>
    rw [recordSuccess_spec] at hchg ⊢
    by_cases hho : st.status = CircuitBreakerStatus.HALF_OPEN
    · rw [if_pos hho] at hchg ⊢
      by_cases hth : st.successCount + 1 ≥ options.successThreshold
      · rw [if_pos hth]
        exact ⟨rfl, rfl⟩
      · rw [if_neg hth] at hchg
        exact absurd rfl hchg
    · rw [if_neg hho] at hchg
      exact absurd rfl hchg
  | failure now st =>
    rw [recordFailure_spec] at hchg ⊢
    by_cases hcf : st.status = CircuitBreakerStatus.CLOSED ∨
        st.status = CircuitBreakerStatus.HALF_OPEN
    · rw [if_pos hcf] at hchg ⊢
      by_cases hth : st.failureCount + 1 ≥ options.failureThreshold
      · rw [if_pos hth]
        exact ⟨rfl, rfl⟩
      · rw [if_neg hth] at hchg
        exact absurd rfl hchg
    · rw [if_neg hcf] at hchg
      exact absurd rfl hchg

/-- Claim C8: in every state reachable from the constructor state, the
status is one of the three statuses, `openedAt` is present exactly when the
status is OPEN or HALF_OPEN (it is retained while half-open — the state
that was most recently open — and cleared on return to CLOSED), and any
operation that changes the status resets both counters to zero. -/
theorem reachable_state_invariant (options : CircuitBreakerOptions)
    (st : CircuitBreakerState) (h : Reachable options st) :
    (st.status = CircuitBreakerStatus.CLOSED ∨
      st.status = CircuitBreakerStatus.OPEN ∨
      st.status = CircuitBreakerStatus.HALF_OPEN) ∧
    (st.openedAt ≠ none ↔
      (st.status = CircuitBreakerStatus.OPEN ∨
        st.status = CircuitBreakerStatus.HALF_OPEN)) ∧
    (∀ st', Step options st st' → st'.status ≠ st.status →
      st'.failureCount = 0 ∧ st'.successCount = 0) :=
  ⟨by cases hs : st.status <;> simp, openedAt_inv options h,
    fun _ hstep hchg => step_counters_reset options hstep hchg⟩

/-- Witness for claim C8 at the constructor state. -/
theorem reachable_state_invariant_witness :
    ((initialState.status = CircuitBreakerStatus.CLOSED ∨
      initialState.status = CircuitBreakerStatus.OPEN ∨
      initialState.status = CircuitBreakerStatus.HALF_OPEN) ∧
    (initialState.openedAt ≠ none ↔
      (initialState.status = CircuitBreakerStatus.OPEN ∨
        initialState.status = CircuitBreakerStatus.HALF_OPEN)) ∧
    (∀ st', Step ⟨2, 2, 1000⟩ initialState st' →
      st'.status ≠ initialState.status →
      st'.failureCount = 0 ∧ st'.successCount = 0)) :=
  reachable_state_invariant ⟨2, 2, 1000⟩ initialState Reachable.init

/-- Claim C9: `getState()` returns a defensive copy.  The returned
reference points at a fresh object equal in all fields to the engine's
internal state object; the engine's internal object is untouched by the
call itself, and it stays untouched under any later external mutation of
the returned object — so no subsequent engine operation, all of which read
only the internal object, can be affected. -/
theorem getState_snapshot (h : Heap) (stateRef : Nat)
    (href : stateRef < h.nextRef) :
    ((CircuitBreaker.getState h stateRef).2.objs
        (CircuitBreaker.getState h stateRef).1 = h.objs stateRef) ∧
    ((CircuitBreaker.getState h stateRef).2.objs stateRef = h.objs stateRef) ∧
    (∀ v : CircuitBreakerState,
      (((CircuitBreaker.getState h stateRef).2.write
          (CircuitBreaker.getState h stateRef).1 v).objs stateRef =
        h.objs stateRef)) := by
  have hne : stateRef ≠ h.nextRef := Nat.ne_of_lt href
  refine ⟨?_, ?_, ?_⟩
  · simp [CircuitBreaker.getState, Heap.alloc]
  · simp [CircuitBreaker.getState, Heap.alloc, hne]
  · intro v
    simp [CircuitBreaker.getState, Heap.alloc, Heap.write, hne]

/-- Witness for claim C9 on a one-object heap. -/
theorem getState_snapshot_witness :
    ((CircuitBreaker.getState ⟨fun _ => initialState, 1⟩ 0).2.objs
        (CircuitBreaker.getState ⟨fun _ => initialState, 1⟩ 0).1 =
      (⟨fun _ => initialState, 1⟩ : Heap).objs 0) ∧
    ((CircuitBreaker.getState ⟨fun _ => initialState, 1⟩ 0).2.objs 0 =
      (⟨fun _ => initialState, 1⟩ : Heap).objs 0) ∧
    (∀ v : CircuitBreakerState,
      (((CircuitBreaker.getState ⟨fun _ => initialState, 1⟩ 0).2.write
          (CircuitBreaker.getState ⟨fun _ => initialState, 1⟩ 0).1 v).objs 0 =
        (⟨fun _ => initialState, 1⟩ : Heap).objs 0)) :=
  getState_snapshot ⟨fun _ => initialState, 1⟩ 0 (by decide)

/-!
## Claims about the remote persistence extension
-/

/-- Claim C5, as stated, is false for `safeSave()`: on a backend with no
entry whose `put` loses the optimistic-concurrency race, `safeSave()` does
not surface the `ConcurrencyConflictError` itself — its catch block only
re-raises `ItemAlreadyExistsError` unwrapped, so the caller receives a
`StorageOperationError` wrapping the conflict. -/
theorem safeSave_wraps_conflict_counterexample :
    (RemoteCircuitBreaker.safeSave (conflictingStorage "cb") "cb"
        initialState ()).1 =
      Except.error (JsError.storageOperation
        "Failed to safeSave circuit breaker state"
        (JsError.concurrencyConflict "cb")) ∧
    (RemoteCircuitBreaker.safeSave (conflictingStorage "cb") "cb"
        initialState ()).1 ≠
      Except.error (JsError.concurrencyConflict "cb") := by
  constructor
  · rfl
  · intro hcontra
    have h1 : (RemoteCircuitBreaker.safeSave (conflictingStorage "cb") "cb"
        initialState ()).1 =
      Except.error (JsError.storageOperation
        "Failed to safeSave circuit breaker state"
        (JsError.concurrencyConflict "cb")) := rfl
    rw [h1] at hcontra
    exact JsError.noConfusion (Except.error.inj hcontra)

/-- Claim C5 (amended): when the backend's `put` under the breaker's name
raises a `ConcurrencyConflictError`, `save()` propagates it unwrapped; but
`safeSave()` on an absent entry fails with a `StorageOperationError` whose
cause is that `ConcurrencyConflictError` — the conflict reaches the caller
wrapped, not unwrapped. -/
theorem conflict_propagation {σ : Type} (storage : AsyncCircuitBreakerStorage σ)
    (name k : String) (state : CircuitBreakerState) (s s₁ : σ) (g : σ → σ)
    (hput : ∀ u : σ, storage.put name state u =
      (Except.error (JsError.concurrencyConflict k), g u))
    (hget : storage.get name s = (Except.ok none, s₁)) :
    (RemoteCircuitBreaker.save storage name state s).1 =
      Except.error (JsError.concurrencyConflict k) ∧
    (RemoteCircuitBreaker.safeSave storage name state s).1 =
      Except.error (JsError.storageOperation
        "Failed to safeSave circuit breaker state"
        (JsError.concurrencyConflict k)) := by
  constructor
  · unfold RemoteCircuitBreaker.save
    rw [hput s]
    rfl
  · unfold RemoteCircuitBreaker.safeSave RemoteCircuitBreaker.save
    simp [hget, hput s₁, JsError.isConcurrencyConflict,
      JsError.isItemAlreadyExists]

/-- Witness for the amended claim C5 on the concrete conflicting backend. -/
theorem conflict_propagation_witness :
    (RemoteCircuitBreaker.save (conflictingStorage "cb") "cb"
        initialState ()).1 =
      Except.error (JsError.concurrencyConflict "cb") ∧
    (RemoteCircuitBreaker.safeSave (conflictingStorage "cb") "cb"
        initialState ()).1 =
      Except.error (JsError.storageOperation
        "Failed to safeSave circuit breaker state"
        (JsError.concurrencyConflict "cb")) :=
  conflict_propagation (conflictingStorage "cb") "cb" "cb" initialState () ()
    (fun _ => ()) (fun _ => rfl) rfl

/-- Claim C6: on an honest key-value backend holding an entry under the
breaker's name, `safeSave()` fails with `ItemAlreadyExistsError` carrying
that name, and performs no write: the backend contents (hence the stored
entry) and the in-memory breaker state are returned unchanged. -/
theorem safeSave_existing_entry (ver name : String)
    (state : CircuitBreakerState)
    (m : List (String × VersionedStorageValue)) (v : VersionedStorageValue)
    (hv : m.lookup name = some v) :
    RemoteCircuitBreaker.safeSave (mapStorage ver) name state m =
      (Except.error (JsError.itemAlreadyExists name), state, m) := by
  unfold RemoteCircuitBreaker.safeSave
  simp [mapStorage, hv, JsError.isItemAlreadyExists]

/-- Witness for claim C6: a one-entry backend rejects `safeSave` under the
existing name and is returned unchanged. -/
theorem safeSave_existing_entry_witness :
    RemoteCircuitBreaker.safeSave (mapStorage "v1") "cb" initialState
        [("cb", ⟨initialState, "v0"⟩)] =
      (Except.error (JsError.itemAlreadyExists "cb"), initialState,
        [("cb", ⟨initialState, "v0"⟩)]) :=
  safeSave_existing_entry "v1" "cb" initialState
    [("cb", ⟨initialState, "v0"⟩)] ⟨initialState, "v0"⟩ rfl

/-- Claim C10: `load()` is read-only with respect to the breaker — for
every backend and every in-memory state, the in-memory state it returns is
the one it was given; the loaded value is only handed back to the caller,
never installed. -/
theorem load_preserves_state {σ : Type} (storage : AsyncCircuitBreakerStorage σ)
    (name : String) (state : CircuitBreakerState) (s : σ) :
    (RemoteCircuitBreaker.load storage name state s).2.1 = state := by
  unfold RemoteCircuitBreaker.load
  cases hget : storage.get name s with
  | mk r s' =>
    cases r with
    | error e => rfl
    | ok o => cases o <;> rfl
